import Mathlib

/-!
Verification development for the OpenTrackIO property decoders
(`src/OpenTrackIOProperties.cpp`).

The decoders consume a parsed JSON document together with a mutable error
sink and produce optional typed values.  Here the document is a shallow
embedding (`Json`), the error sink becomes the second component of the
returned pair, and every decoder is a pure function
`Json → Option Entity × List String` whose error list holds the messages
appended by that call, in order.

The validation helpers and the primitive value parsers live in headers that
are not part of the source tree; they are modelled from the spec and marked
as such in their doc comments.  Everything else is translated directly from
`OpenTrackIOProperties.cpp`.
-/

namespace OpenTrack

/-- Shallow embedding of an nlohmann JSON value.  Integral and floating
numbers are kept apart because the decoders distinguish the two kinds;
floating values are represented by rationals. -/
inductive Json where
  | null
  | jbool (b : Bool)
  | jint (n : Int)
  | jfloat (q : Rat)
  | jstr (s : String)
  | jarr (xs : List Json)
  | jobj (fields : List (String × Json))

/-- Key lookup in an object's field list (first match). -/
def lookupField : List (String × Json) → String → Option Json
  | [], _ => none
  | (k, v) :: fs, key => if k = key then some v else lookupField fs key

/-- `j[key]` as an optional value; `none` on non-objects, matching
`nlohmann::json::contains`, which only reports keys of objects. -/
def Json.get? : Json → String → Option Json
  | .jobj fs, key => lookupField fs key
  | _, _ => none

/-- `json.contains(key)`. -/
def Json.contains (j : Json) (key : String) : Bool :=
  (j.get? key).isSome

/-- `json[key]` on paths the source only reaches after a `contains` guard
(or, for `protocol`, without one); missing keys give `null`. -/
def Json.getD (j : Json) (key : String) : Json :=
  (j.get? key).getD .null

/-- `is_object()`. -/
def Json.isObj : Json → Bool
  | .jobj _ => true
  | _ => false

/-- Removes one key from an object, leaving other values untouched; used to
compare a decode against the decode of the same document without a field. -/
def Json.eraseKey : Json → String → Json
  | .jobj fs, key => .jobj (fs.filter (fun p => p.1 != key))
  | j, _ => j

theorem lookupField_filter_ne (fs : List (String × Json)) (k k' : String)
    (h : k' ≠ k) :
    lookupField (fs.filter (fun p => p.1 != k)) k' = lookupField fs k' := by
  induction fs with
  | nil => rfl
  | cons p fs ih =>
    by_cases hp : p.1 = k
    · have h0 : (p.1 != k) = false := by simp [hp]
      have hne : ¬ p.1 = k' := by rw [hp]; exact fun he => h he.symm
      simp [List.filter, h0, lookupField, ih, hne]
    · have : (p.1 != k) = true := by simp [hp]
      simp only [List.filter, this]
      by_cases he : p.1 = k'
      · simp [lookupField, he]
      · have h1 : (p.1 = k') = False := by simp [he]
        simp [lookupField, h1, ih]

theorem eraseKey_get?_ne (j : Json) (k k' : String) (h : k' ≠ k) :
    (j.eraseKey k).get? k' = j.get? k' := by
  cases j <;> simp [Json.eraseKey, Json.get?]
  exact lookupField_filter_ne _ _ _ h

theorem eraseKey_get?_self (j : Json) (k : String) :
    (j.eraseKey k).get? k = none := by
  cases j with
  | jobj fs =>
    simp only [Json.eraseKey, Json.get?]
    induction fs with
    | nil => rfl
    | cons p fs ih =>
      by_cases hp : p.1 = k
      · have : (p.1 != k) = false := by simp [hp]
        simpa [List.filter, this] using ih
      · have h1 : (p.1 != k) = true := by simp [hp]
        have h2 : (p.1 = k) = False := by simp [hp]
        simp only [List.filter, h1]
        simpa [lookupField, h2] using ih
  | null => rfl
  | jbool b => rfl
  | jint n => rfl
  | jfloat q => rfl
  | jstr s => rfl
  | jarr xs => rfl

theorem get?_some_isObj (j : Json) (k : String) (v : Json)
    (h : j.get? k = some v) : j.isObj = true := by
  cases j <;> simp_all [Json.get?, Json.isObj]

theorem eraseKey_isObj (j : Json) (k : String) :
    (j.eraseKey k).isObj = j.isObj := by
  cases j <;> rfl

/-! ### Pattern matchers

The source compiles ECMAScript regexes and uses full-string matching
(`std::regex_match`).  Each pattern is embedded as an executable matcher
over the string's character list. -/

/-- `[0-9a-f]`. -/
def isLowerHex (c : Char) : Bool :=
  c.isDigit || ('a' ≤ c && c ≤ 'f')

/-- `[A-F0-9]`. -/
def isUpperHex (c : Char) : Bool :=
  c.isDigit || ('A' ≤ c && c ≤ 'F')

/-- Consume exactly `n` characters satisfying `p`. -/
def takeClass (p : Char → Bool) : Nat → List Char → Option (List Char)
  | 0, l => some l
  | _ + 1, [] => none
  | n + 1, c :: cs => if p c then takeClass p n cs else none

/-- Consume one literal character. -/
def takeLit (c : Char) : List Char → Option (List Char)
  | [] => none
  | x :: xs => if x = c then some xs else none

/-- Consume a literal prefix. -/
def takeLits : List Char → List Char → Option (List Char)
  | [], l => some l
  | _ :: _, [] => none
  | c :: cs, x :: xs => if x = c then takeLits cs xs else none

/-- Full match of
`^urn:uuid:[0-9a-f]{8}-[0-9a-f]{4}-[0-9a-f]{4}-[0-9a-f]{4}-[0-9a-f]{12}$`. -/
def isUuidUrn (s : String) : Bool :=
  let rest := takeLits "urn:uuid:".data s.data >>= takeClass isLowerHex 8 >>=
    takeLit '-' >>= takeClass isLowerHex 4 >>= takeLit '-' >>=
    takeClass isLowerHex 4 >>= takeLit '-' >>= takeClass isLowerHex 4 >>=
    takeLit '-' >>= takeClass isLowerHex 12
  rest = some []

/-- Full match of `^([A-F0-9]{2}:){5}[A-F0-9]{2}$`. -/
def isMacAddr (s : String) : Bool :=
  let grp := fun l => takeClass isUpperHex 2 l >>= takeLit ':'
  let rest := grp s.data >>= grp >>= grp >>= grp >>= grp >>=
    takeClass isUpperHex 2
  rest = some []

/-- ECMAScript line terminators, which `.` does not match. -/
def isLineTerm (c : Char) : Bool :=
  c = '\n' || c = '\r' || c.val = 0x2028 || c.val = 0x2029

/-- Tokens of the two version-string patterns: a nonempty digit run
(`[0-9]+`), the metacharacter `.` (any character bar line terminators), and
a literal dot. -/
inductive Tok where
  | digitsP
  | anyC
  | dotC

/-- Backtracking full-string matcher for a token sequence; decides whether a
whole-string match exists, which is what `std::regex_match` reports. -/
def matchToks : List Tok → List Char → Bool
  | [], l => l.isEmpty
  | .anyC :: _, [] => false
  | .anyC :: ts, c :: cs => !isLineTerm c && matchToks ts cs
  | .dotC :: _, [] => false
  | .dotC :: ts, c :: cs => c = '.' && matchToks ts cs
  | .digitsP :: _, [] => false
  | .digitsP :: ts, c :: cs =>
      c.isDigit && (matchToks ts cs || matchToks (.digitsP :: ts) cs)
  termination_by structural _ cs => cs

/-- The source's protocol version pattern `^[0-9]+.[0-9]+.[0-9]+$`, with the
dots unescaped exactly as written there: each `.` matches any character. -/
def versionPatMatch (s : String) : Bool :=
  matchToks [.digitsP, .anyC, .digitsP, .anyC, .digitsP] s.data

/-- Version format as the spec words it: three dot-separated non-negative
integers, the separators being literal dots.  Stated only to compare the
spec's wording with the source's `versionPatMatch`. -/
def specVersionFormat (s : String) : Bool :=
  matchToks [.digitsP, .dotC, .digitsP, .dotC, .digitsP] s.data

/-! ### Conversions and validation helpers

`OpenTrackIOHelper.h` is not part of the source tree; the helpers below are
modelled from the spec (§4.1): type-checked optional-field assignment with a
declared expected kind, regex-constrained string assignment, and homogeneous
array population.  `checkTypeAndSetField` becomes one conversion function per
target type. -/

/-- Modelled from the spec: `checkTypeAndSetField` for a string target. -/
def convString : Json → Option String
  | .jstr s => some s
  | _ => none

theorem convString_jstr (s : String) : convString (.jstr s) = some s := rfl

/-- Modelled from the spec: `checkTypeAndSetField` for a bool target. -/
def convBool : Json → Option Bool
  | .jbool b => some b
  | _ => none

/-- Modelled from the spec: `checkTypeAndSetField` for a signed integer
target. -/
def convInt : Json → Option Int
  | .jint n => some n
  | _ => none

/-- Modelled from the spec: `checkTypeAndSetField` for a `uint32` target:
a non-negative integer below `2^32`. -/
def convUInt32 (j : Json) : Option Nat :=
  match j with
  | .jint n => if 0 ≤ n ∧ n < 2 ^ 32 then some n.toNat else none
  | _ => none

/-- Modelled from the spec: `checkTypeAndSetField` for a `uint16` target. -/
def convUInt16 (j : Json) : Option Nat :=
  match j with
  | .jint n => if 0 ≤ n ∧ n < 2 ^ 16 then some n.toNat else none
  | _ => none

/-- Modelled from the spec: `checkTypeAndSetField` for an `int64` target. -/
def convInt64 (j : Json) : Option Int :=
  match j with
  | .jint n => if -(2 ^ 63) ≤ n ∧ n < 2 ^ 63 then some n else none
  | _ => none

/-- Modelled from the spec: `checkTypeAndSetField` for a double target:
any numeric value. -/
def convDouble : Json → Option Rat
  | .jint n => some (n : Rat)
  | .jfloat q => some q
  | _ => none

/-- Modelled from the spec: `iterateJsonArrayAndPopulateVector` — coerce
every element; fail on the first incompatible one. -/
def iterateJsonArrayAndPopulateVector (conv : Json → Option α) :
    List Json → Option (List α)
  | [] => some []
  | x :: xs =>
    match conv x, iterateJsonArrayAndPopulateVector conv xs with
    | some v, some vs => some (v :: vs)
    | _, _ => none

/-- Modelled from the spec: `checkTypeAndSetField` for a `vector<double>`
target — an array whose every element is numeric. -/
def convVecDouble : Json → Option (List Rat)
  | .jarr xs => iterateJsonArrayAndPopulateVector convDouble xs
  | _ => none

/-- Type-mismatch diagnostic in the form the source's own messages use. -/
def typeMsg (key ty : String) : String :=
  "field: " ++ key ++ " isn\x27t of type: " ++ ty

/-- Pattern-mismatch diagnostic (a category distinct from type mismatch). -/
def patternMsg (key : String) : String :=
  "field: " ++ key ++ " doesn\x27t match required pattern"

/-- Modelled from the spec: `assignField` — if `key` is absent the target
keeps its previous value (`old`) with no error; if present but failing the
type check, one descriptive error and the target is left absent; otherwise
the value is assigned. -/
def assignField (old : Option α) (j : Json) (key : String)
    (conv : Json → Option α) (ty : String) : Option α × List String :=
  match j.get? key with
  | none => (old, [])
  | some v =>
    match conv v with
    | some x => (some x, [])
    | none => (none, [typeMsg key ty])

/-- Modelled from the spec: `assignRegexField` — as `assignField` for a
string target, plus a full-string pattern match whose failure is reported as
a distinct error category. -/
def assignRegexField (old : Option String) (j : Json) (key : String)
    (patt : String → Bool) : Option String × List String :=
  match j.get? key with
  | none => (old, [])
  | some v =>
    match convString v with
    | none => (none, [typeMsg key "string"])
    | some s =>
      if patt s then (some s, []) else (none, [patternMsg key])

/-- `if (json.contains(key)) target = Sub::parse(json[key], errors);` —
the sub-parser is invoked only when the key is present. -/
def optSubParse (j : Json) (key : String)
    (p : Json → Option α × List String) : Option α × List String :=
  match j.get? key with
  | some v => p v
  | none => (none, [])

/-! ### Primitive value types and parsers

The `opentrackiotypes` sources are not part of the source tree; the types
and parsers below are modelled from the spec (§2: primitive parsers decode
rational numbers, physical/pixel dimensions, timestamps, timecodes and
generic transforms, each taking a JSON node and returning an optional typed
value plus errors). -/

/-- Modelled from the spec: a rational number with `num`/`denom` fields. -/
structure Rational where
  num : Int
  denom : Int
  deriving DecidableEq, Repr

/-- Modelled from the spec: primitive parser for rational numbers — an
object carrying integer `num` and `denom` fields; anything else yields no
value and one error. -/
def Rational.parse (j : Json) : Option Rational × List String :=
  match (j.get? "num").bind convInt, (j.get? "denom").bind convInt with
  | some n, some d => (some ⟨n, d⟩, [])
  | _, _ => (none, ["field: rational is missing required fields"])

/-- Modelled from the spec: physical/pixel dimensions. -/
structure Dimensions where
  width : Rat
  height : Rat
  deriving DecidableEq, Repr

/-- Modelled from the spec: primitive parser for dimensions — an object
carrying numeric `width` and `height` fields. -/
def Dimensions.parse (j : Json) : Option Dimensions × List String :=
  match (j.get? "width").bind convDouble, (j.get? "height").bind convDouble with
  | some w, some h => (some ⟨w, h⟩, [])
  | _, _ => (none, ["field: dimensions is missing required fields"])

/-- Modelled from the spec: a timestamp. -/
structure Timestamp where
  seconds : Nat
  nanoseconds : Nat
  deriving DecidableEq, Repr

/-- Modelled from the spec: primitive parser for timestamps — an object
carrying unsigned `seconds` and `nanoseconds` fields. -/
def Timestamp.parse (j : Json) : Option Timestamp × List String :=
  match (j.get? "seconds").bind convUInt32,
      (j.get? "nanoseconds").bind convUInt32 with
  | some s, some n => (some ⟨s, n⟩, [])
  | _, _ => (none, ["field: timestamp is missing required fields"])

/-- Modelled from the spec: a timecode. -/
structure Timecode where
  hours : Int
  minutes : Int
  seconds : Int
  frames : Int
  deriving DecidableEq, Repr

/-- Modelled from the spec: primitive parser for timecodes — an object
carrying integer `hours`, `minutes`, `seconds` and `frames` fields. -/
def Timecode.parse (j : Json) : Option Timecode × List String :=
  match (j.get? "hours").bind convInt, (j.get? "minutes").bind convInt,
      (j.get? "seconds").bind convInt, (j.get? "frames").bind convInt with
  | some h, some m, some s, some f => (some ⟨h, m, s, f⟩, [])
  | _, _, _, _ => (none, ["field: timecode is missing required fields"])

/-- Modelled from the spec: a 3-component vector of doubles. -/
structure Vector3 where
  x : Rat
  y : Rat
  z : Rat
  deriving DecidableEq, Repr

/-- Modelled from the spec: a 3-component rotation of doubles. -/
structure Rotator3 where
  pan : Rat
  tilt : Rat
  roll : Rat
  deriving DecidableEq, Repr

/-- Modelled from the spec: one generic transform entry. -/
structure Transform where
  translation : Vector3
  rotation : Rotator3
  deriving DecidableEq, Repr

/-- Modelled from the spec: primitive parser for generic transform entries —
an object with numeric translation and rotation components; invalid entries
yield no value and one error. -/
def Transform.parse (j : Json) : Option Transform × List String :=
  match (j.get? "translation").bind (fun t =>
      match (t.get? "x").bind convDouble, (t.get? "y").bind convDouble,
          (t.get? "z").bind convDouble with
      | some x, some y, some z => some (Vector3.mk x y z)
      | _, _, _ => none),
    (j.get? "rotation").bind (fun r =>
      match (r.get? "pan").bind convDouble, (r.get? "tilt").bind convDouble,
          (r.get? "roll").bind convDouble with
      | some p, some t, some rl => some (Rotator3.mk p t rl)
      | _, _, _ => none) with
  | some tr, some rot => (some ⟨tr, rot⟩, [])
  | _, _ => (none, ["field: transform is missing required fields"])

/-! ### Property decoders, translated from `OpenTrackIOProperties.cpp` -/

/-- `Camera` (field types per spec §3: strings, rationals, dimensions,
`isoSpeed`/`shutterAngle` integers, `fdlLink` UUID-pattern string). -/
structure Camera where
  activeSensorPhysicalDimensions : Option Dimensions := none
  activeSensorResolution : Option Dimensions := none
  anamorphicSqueeze : Option Rational := none
  firmwareVersion : Option String := none
  label : Option String := none
  make : Option String := none
  model : Option String := none
  serialNumber : Option String := none
  captureFrameRate : Option Rational := none
  fdlLink : Option String := none
  isoSpeed : Option Int := none
  shutterAngle : Option Int := none
  deriving DecidableEq, Repr

/-- `Camera::parse`. -/
def Camera.parse (j : Json) : Option Camera × List String :=
  match (j.get? "static").bind (fun st => st.get? "camera") with
  | none => (none, [])
  | some cj =>
    if ¬ cj.isObj then
      (none, ["field: camera isn\x27t of type: object"])
    else
      let (aspd, e1) := optSubParse cj "activeSensorPhysicalDimensions" Dimensions.parse
      let (asr, e2) := optSubParse cj "activeSensorResolution" Dimensions.parse
      let (asq, e3) := optSubParse cj "anamorphicSqueeze" Rational.parse
      let (fw, e4) := assignField none cj "firmwareVersion" convString "string"
      let (lbl, e5) := assignField none cj "label" convString "string"
      let (mak, e6) := assignField none cj "make" convString "string"
      let (mdl, e7) := assignField none cj "model" convString "string"
      let (ser, e8) := assignField none cj "serialNumber" convString "string"
      let (cfr, e9) := optSubParse cj "captureFrameRate" Rational.parse
      let (fdl, e10) := assignRegexField none cj "fdlLink" isUuidUrn
      let (iso, e11) := assignField none cj "isoSpeed" convInt "integer"
      let (sa, e12) := assignField none cj "shutterAngle" convInt "integer"
      -- The source's range check tests only the upper bound:
      -- `if (cam.shutterAngle.has_value() && cam.shutterAngle.value() > 360000)`
      let (sa2, e13) : Option Int × List String :=
        match sa with
        | some v =>
          if v > 360000 then
            (none, ["field: shutterAngle is outside the expected range 1 - 360000."])
          else
            (some v, [])
        | none => (none, [])
      (some ⟨aspd, asr, asq, fw, lbl, mak, mdl, ser, cfr, fdl, iso, sa2⟩,
        e1 ++ e2 ++ e3 ++ e4 ++ e5 ++ e6 ++ e7 ++ e8 ++ e9 ++ e10 ++ e11 ++
          e12 ++ e13)

/-- `Duration` (both fields `uint32`, required). -/
structure Duration where
  num : Nat
  denom : Nat
  deriving DecidableEq, Repr

/-- `Duration::parse`.  The source assigns the `"denom"` JSON field into the
`numerator` variable; the `denominator` variable is declared but never
written. -/
def Duration.parse (j : Json) : Option Duration × List String :=
  match (j.get? "static").bind (fun st => st.get? "duration") with
  | none => (none, [])
  | some dj =>
    if ¬ dj.isObj then
      (none, ["field: duration isn\x27t of type: object"])
    else
      let denominator : Option Nat := none
      let (numerator, e1) := assignField none dj "num" convUInt32 "uint32"
      let (numerator2, e2) := assignField numerator dj "denom" convUInt32 "uint32"
      match numerator2, denominator with
      | some n, some d => (some ⟨n, d⟩, e1 ++ e2)
      | _, _ =>
        (none, e1 ++ e2 ++ ["field: duration is missing required fields"])

/-- `GlobalStage` (all six doubles required). -/
structure GlobalStage where
  e : Rat
  n : Rat
  u : Rat
  lat0 : Rat
  lon0 : Rat
  h0 : Rat
  deriving DecidableEq, Repr

/-- One step of `GlobalStage::parse`'s `fieldCheckAndAssign` lambda, in
continuation style to mirror the short-circuiting `&&` chain: the first
failing field reports and aborts the entity. -/
def gsStep (gj : Json) (key : String)
    (rest : Rat → Option GlobalStage × List String) :
    Option GlobalStage × List String :=
  match gj.get? key with
  | none => (none, ["field: globalStage is missing require field: " ++ key])
  | some v =>
    match convDouble v with
    | none => (none, ["field: globalStage/" ++ key ++ " isn\x27t a number"])
    | some d => rest d

/-- `GlobalStage::parse`. -/
def GlobalStage.parse (j : Json) : Option GlobalStage × List String :=
  match j.get? "globalStage" with
  | none => (none, [])
  | some gj =>
    if ¬ gj.isObj then
      (none, ["field: globalStage isn\x27t of type: object"])
    else
      gsStep gj "E" fun e => gsStep gj "N" fun n => gsStep gj "U" fun u =>
      gsStep gj "lat0" fun lat0 => gsStep gj "lon0" fun lon0 =>
      gsStep gj "h0" fun h0 => (some ⟨e, n, u, lat0, lon0, h0⟩, [])

/-- `Lens.distortion` group: `radial` required within the group,
`tangential` optional. -/
structure Distortion where
  radial : List Rat
  tangential : Option (List Rat)
  deriving DecidableEq, Repr

/-- `Lens.undistortion` group. -/
structure Undistortion where
  radial : List Rat
  tangential : Option (List Rat)
  deriving DecidableEq, Repr

/-- `Lens.distortionShift` group. -/
structure DistortionShift where
  x : Rat
  y : Rat
  deriving DecidableEq, Repr

/-- `Lens.perspectiveShift` group. -/
structure PerspectiveShift where
  x : Rat
  y : Rat
  deriving DecidableEq, Repr

/-- `Lens.exposureFalloff` group: `a1` required, `a2`/`a3` optional. -/
structure ExposureFalloff where
  a1 : Rat
  a2 : Option Rat
  a3 : Option Rat
  deriving DecidableEq, Repr

/-- `Lens` (spec §3; the spec lists `encoders`/`rawEncoders` without member
structure — the source assigns them with expected kind `double`, so they are
modelled as doubles). -/
structure Lens where
  firmwareVersion : Option String := none
  make : Option String := none
  model : Option String := none
  nominalFocalLength : Option Rat := none
  serialNumber : Option String := none
  custom : Option (List Rat) := none
  distortion : Option Distortion := none
  distortionOverscan : Option Rat := none
  distortionScale : Option Rat := none
  distortionShift : Option DistortionShift := none
  encoders : Option Rat := none
  entrancePupilOffset : Option Rational := none
  exposureFalloff : Option ExposureFalloff := none
  fStop : Option Nat := none
  focalLength : Option Rat := none
  focusDistance : Option Nat := none
  perspectiveShift : Option PerspectiveShift := none
  rawEncoders : Option Rat := none
  tStop : Option Nat := none
  undistortion : Option Undistortion := none
  deriving DecidableEq, Repr

/-- The static-section block of `Lens::parse`. -/
def lensStaticPart (j : Json) :
    (Option String × Option String × Option String × Option Rat ×
      Option String) × List String :=
  match (j.get? "static").bind (fun st => st.get? "lens") with
  | none => ((none, none, none, none, none), [])
  | some lj =>
    let (fw, e1) := assignField none lj "firmwareVersion" convString "string"
    let (mak, e2) := assignField none lj "make" convString "string"
    let (mdl, e3) := assignField none lj "model" convString "string"
    let (nfl, e4) := assignField none lj "nominalFocalLength" convDouble "double"
    let (ser, e5) := assignField none lj "serialNumber" convString "string"
    ((fw, mak, mdl, nfl, ser), e1 ++ e2 ++ e3 ++ e4 ++ e5)

/-- The `distortion`/`undistortion` group body: both members attempted
independently; the group materializes only when `radial` decoded. -/
def lensDistortionGroup (dj : Json) :
    Option (List Rat × Option (List Rat)) × List String :=
  let (radial, e1) := assignField none dj "radial" convVecDouble "double"
  let (tangential, e2) := assignField none dj "tangential" convVecDouble "double"
  (match radial with
   | some r => some (r, tangential)
   | none => none, e1 ++ e2)

/-- `Lens::parse`. -/
def Lens.parse (j : Json) : Option Lens × List String :=
  if ((j.get? "lens").isNone ∧
      ((j.get? "static").bind (fun st => st.get? "lens")).isNone) then
    (none, [])
  else
    let ((fw, mak, mdl, nfl, ser), eS) := lensStaticPart j
    match j.get? "lens" with
    | none =>
      (some { firmwareVersion := fw, make := mak, model := mdl,
              nominalFocalLength := nfl, serialNumber := ser }, eS)
    | some lj =>
      let (custom, e1) : Option (List Rat) × List String :=
        match lj.get? "custom" with
        | some (.jarr xs) =>
          match iterateJsonArrayAndPopulateVector convDouble xs with
          | some l => (some l, [])
          | none => (none, ["field: lens/custom value isn\x27t of type: double"])
        | _ => (none, [])
      let (dist, e2) : Option Distortion × List String :=
        match lj.get? "distortion" with
        | none => (none, [])
        | some dj =>
          let (g, e) := lensDistortionGroup dj
          (g.map (fun p => Distortion.mk p.1 p.2), e)
      let (dOver, e3) := assignField none lj "distortionOverscan" convDouble "double"
      let (dScale, e4) := assignField none lj "distortionScale" convDouble "double"
      let (dShift, e5) : Option DistortionShift × List String :=
        match lj.get? "distortionShift" with
        | none => (none, [])
        | some sj =>
          let (x, ex) := assignField none sj "x" convDouble "double"
          let (y, ey) := assignField none sj "y" convDouble "double"
          (match x, y with
           | some xv, some yv => some ⟨xv, yv⟩
           | _, _ => none, ex ++ ey)
      let (enc, e6) := assignField none lj "encoders" convDouble "double"
      let (epo, e7) : Option Rational × List String :=
        match lj.get? "entrancePupilOffset" with
        | none => (none, [])
        | some ej =>
          let (num, en) := assignField none ej "num" convInt64 "int64"
          let (den, ed) := assignField none ej "denom" convInt64 "int64"
          (match num, den with
           | some n, some d => some ⟨n, d⟩
           | _, _ => none, en ++ ed)
      let (ef, e8) : Option ExposureFalloff × List String :=
        match lj.get? "exposureFalloff" with
        | none => (none, [])
        | some fj =>
          let (a1, ea1) := assignField none fj "a1" convDouble "double"
          let (a2, ea2) := assignField none fj "a2" convDouble "double"
          let (a3, ea3) := assignField none fj "a3" convDouble "double"
          (match a1 with
           | some v => some ⟨v, a2, a3⟩
           | none => none, ea1 ++ ea2 ++ ea3)
      let (fStop, e9) := assignField none lj "fStop" convUInt32 "uint32"
      let (fLen, e10) := assignField none lj "focalLength" convDouble "double"
      let (fDist, e11) := assignField none lj "focusDistance" convUInt32 "uint32"
      let (pShift, e12) : Option PerspectiveShift × List String :=
        match lj.get? "perspectiveShift" with
        | none => (none, [])
        | some sj =>
          let (x, ex) := assignField none sj "x" convDouble "double"
          let (y, ey) := assignField none sj "y" convDouble "double"
          (match x, y with
           | some xv, some yv => some ⟨xv, yv⟩
           | _, _ => none, ex ++ ey)
      let (rawEnc, e13) := assignField none lj "rawEncoders" convDouble "double"
      let (tStop, e14) := assignField none lj "tStop" convUInt32 "uint32"
      let (undist, e15) : Option Undistortion × List String :=
        match lj.get? "undistortion" with
        | none => (none, [])
        | some dj =>
          let (g, e) := lensDistortionGroup dj
          (g.map (fun p => Undistortion.mk p.1 p.2), e)
      (some ⟨fw, mak, mdl, nfl, ser, custom, dist, dOver, dScale, dShift, enc,
          epo, ef, fStop, fLen, fDist, pShift, rawEnc, tStop, undist⟩,
        eS ++ e1 ++ e2 ++ e3 ++ e4 ++ e5 ++ e6 ++ e7 ++ e8 ++ e9 ++ e10 ++
          e11 ++ e12 ++ e13 ++ e14 ++ e15)

/-- `Protocol` (`name` required string, `version` pattern-checked string). -/
structure Protocol where
  name : String
  version : String
  deriving DecidableEq, Repr

/-- `Protocol::parse`.  The source reads `proJson["name"]` without a
`contains` guard; a missing key is modelled as `null`, which fails the
string type check. -/
def Protocol.parse (j : Json) : Option Protocol × List String :=
  match j.get? "protocol" with
  | none => (none, [])
  | some pj =>
    match convString (pj.getD "name") with
    | none => (none, ["field: protocol isn\x27t of type: string"])
    | some name =>
      let (versionStr, e) := assignRegexField none pj "version" versionPatMatch
      match versionStr with
      | none => (none, e)
      | some v => (some ⟨name, v⟩, e)

/-- `RelatedSampleIds` (sequence of UUID-pattern strings). -/
structure RelatedSampleIds where
  samples : List String
  deriving DecidableEq, Repr

/-- The element loop of `RelatedSampleIds::parse`: invalid elements are
skipped with one error each, valid ones retained in order. -/
def rsLoop : List Json → List String × List String
  | [] => ([], [])
  | x :: xs =>
    let (rest, es) := rsLoop xs
    match convString x with
    | none => (rest, "field: relatedSampleIds/element isn\x27t of type: string" :: es)
    | some s =>
      if isUuidUrn s then (s :: rest, es)
      else (rest, "field: relatedSampleIds/element doesn\x27t match required pattern" :: es)

/-- `RelatedSampleIds::parse`. -/
def RelatedSampleIds.parse (j : Json) : Option RelatedSampleIds × List String :=
  match j.get? "relatedSampleIds" with
  | none => (none, [])
  | some rj =>
    match rj with
    | .jarr xs =>
      let (samples, es) := rsLoop xs
      (some ⟨samples⟩, es)
    | _ => (none, ["field: relatedSampleIds isn\x27t of type: array"])

/-- `SampleId` (single UUID-pattern string). -/
structure SampleId where
  id : String
  deriving DecidableEq, Repr

/-- `SampleId::parse`. -/
def SampleId.parse (j : Json) : Option SampleId × List String :=
  match j.get? "sampleId" with
  | none => (none, [])
  | some _ =>
    let (str, e) := assignRegexField none j "sampleId" isUuidUrn
    match str with
    | none => (none, e)
    | some s => (some ⟨s⟩, e)

/-- `StreamId` (single UUID-pattern string). -/
structure StreamId where
  id : String
  deriving DecidableEq, Repr

/-- `StreamId::parse`. -/
def StreamId.parse (j : Json) : Option StreamId × List String :=
  match j.get? "streamId" with
  | none => (none, [])
  | some _ =>
    let (str, e) := assignRegexField none j "streamId" isUuidUrn
    match str with
    | none => (none, e)
    | some s => (some ⟨s⟩, e)

/-- `Timing::Mode`. -/
inductive Mode where
  | EXTERNAL
  | INTERNAL
  deriving DecidableEq, Repr

/-- `Synchronization::SourceType`. -/
inductive SourceType where
  | GEN_LOCK
  | VIDEO_IN
  | PTP
  | NTP
  deriving DecidableEq, Repr

/-- `Synchronization::Offsets` (all members optional doubles). -/
structure Offsets where
  translation : Option Rat
  rotation : Option Rat
  lensEncoders : Option Rat
  deriving DecidableEq, Repr

/-- `Synchronization::Ptp`. -/
structure Ptp where
  domain : Option Nat
  offset : Option Rat
  master : Option String
  deriving DecidableEq, Repr

/-- `Timing::Synchronization` (`frequency`, `locked`, `source` required). -/
structure Synchronization where
  frequency : Rational
  locked : Bool
  source : SourceType
  offsets : Option Offsets := none
  present : Option Bool := none
  ptp : Option Ptp := none
  deriving DecidableEq, Repr

/-- `Timing`. -/
structure Timing where
  frameRate : Option Rational := none
  mode : Option Mode := none
  recordedTimestamp : Option Timestamp := none
  sampleTimestamp : Option Timestamp := none
  sequenceNumber : Option Nat := none
  synchronization : Option Synchronization := none
  timecode : Option Timecode := none
  deriving DecidableEq, Repr

/-- The `source` enumeration mapping of `Timing::parseSynchronization`. -/
def sourceOf (s : String) : Option SourceType :=
  if s = "genlock" then some .GEN_LOCK
  else if s = "videoIn" then some .VIDEO_IN
  else if s = "ptp" then some .PTP
  else if s = "ntp" then some .NTP
  else none

/-- `Timing::parseSynchronization`. -/
def Timing.parseSynchronization (j : Json) :
    Option Synchronization × List String :=
  if ¬ (j.contains "frequency" ∧ j.contains "locked" ∧ j.contains "source") then
    (none, ["field: timing/synchronization is missing required fields"])
  else
    match Rational.parse (j.getD "frequency") with
    | (none, eF) =>
      (none, eF ++ ["field: timing/synchronization/frequency is missing required fields"])
    | (some freq, eF) =>
      match convBool (j.getD "locked") with
      | none =>
        (none, eF ++ ["field: timing/synchronization/lock isn\x27t of type: bool"])
      | some locked =>
        match convString (j.getD "source") with
        | none =>
          (none, eF ++ ["field: timing/synchronization/source isn\x27t of type: string"])
        | some str =>
          match sourceOf str with
          | none =>
            (none, eF ++ ["field: timing/synchronization/source isn\x27t a valid enumeration"])
          | some src =>
            let (offsets, eO) : Option Offsets × List String :=
              match j.get? "offsets" with
              | none => (none, [])
              | some oj =>
                let (tr, e1) := assignField none oj "translation" convDouble "double"
                let (rot, e2) := assignField none oj "rotation" convDouble "double"
                let (le, e3) := assignField none oj "lensEncoders" convDouble "double"
                (if tr.isNone ∧ rot.isNone ∧ le.isNone then none
                 else some ⟨tr, rot, le⟩, e1 ++ e2 ++ e3)
            let (present, eP) := assignField none j "present" convBool "bool"
            let (ptp, eT) : Option Ptp × List String :=
              match j.get? "ptp" with
              | none => (none, [])
              | some pj =>
                let (dom, e1) := assignField none pj "domain" convUInt16 "uint16"
                let (off, e2) := assignField none pj "offset" convDouble "double"
                let (mas, e3) := assignRegexField none pj "master" isMacAddr
                (if dom.isNone ∧ off.isNone ∧ mas.isNone then none
                 else some ⟨dom, off, mas⟩, e1 ++ e2 ++ e3)
            (some ⟨freq, locked, src, offsets, present, ptp⟩,
              eF ++ eO ++ eP ++ eT)

/-- The `mode` handling inside `Timing::parse`.  The source writes
`if (str.has_value() && (str == "external" || "internal"))`: the literal
`"internal"` converts to a non-null pointer, so the parenthesised
disjunction is true whenever `str` has a value, and the else branch runs
exactly when `str` is absent. -/
def timingModeField (tj : Json) : Option Mode × List String :=
  let (str, e) := assignField none tj "mode" convString "string"
  match str with
  | some s => (some (if s = "external" then Mode.EXTERNAL else Mode.INTERNAL), e)
  | none => (none, e ++ ["field: timing/mode has an invalid string value."])

/-- `Timing::parse`. -/
def Timing.parse (j : Json) : Option Timing × List String :=
  match j.get? "timing" with
  | none => (none, [])
  | some tj =>
    if ¬ tj.isObj then
      (none, ["field: timing isn\x27t of type: object"])
    else
      let (frameRate, e1) := optSubParse tj "frameRate" Rational.parse
      let (mode, e2) := timingModeField tj
      let (recTs, e3) := optSubParse tj "recordedTimestamp" Timestamp.parse
      let (sampTs, e4) := optSubParse tj "sampleTimestamp" Timestamp.parse
      let (seqNum, e5) := assignField none tj "sequenceNumber" convUInt16 "uint16"
      let (sync, e6) := optSubParse tj "synchronization" Timing.parseSynchronization
      let (tc, e7) := optSubParse tj "timecode" Timecode.parse
      (some ⟨frameRate, mode, recTs, sampTs, seqNum, sync, tc⟩,
        e1 ++ e2 ++ e3 ++ e4 ++ e5 ++ e6 ++ e7)

/-- `Tracker`. -/
structure Tracker where
  firmwareVersion : Option String := none
  make : Option String := none
  model : Option String := none
  serialNumber : Option String := none
  notes : Option String := none
  recording : Option Bool := none
  slate : Option String := none
  status : Option String := none
  deriving DecidableEq, Repr

/-- `Tracker::parse`. -/
def Tracker.parse (j : Json) : Option Tracker × List String :=
  if ((j.get? "tracker").isNone ∧
      ((j.get? "static").bind (fun st => st.get? "tracker")).isNone) then
    (none, [])
  else
    let ((fw, mak, mdl, ser), eS) :
        (Option String × Option String × Option String × Option String) ×
          List String :=
      match (j.get? "static").bind (fun st => st.get? "tracker") with
      | none => ((none, none, none, none), [])
      | some sj =>
        let (fw, e1) := assignField none sj "firmwareVersion" convString "string"
        let (mak, e2) := assignField none sj "make" convString "string"
        let (mdl, e3) := assignField none sj "model" convString "string"
        let (ser, e4) := assignField none sj "serialNumber" convString "string"
        ((fw, mak, mdl, ser), e1 ++ e2 ++ e3 ++ e4)
    match j.get? "tracker" with
    | none =>
      (some { firmwareVersion := fw, make := mak, model := mdl,
              serialNumber := ser }, eS)
    | some tj =>
      let (notes, e1) := assignField none tj "notes" convString "string"
      let (rec, e2) := assignField none tj "recording" convBool "boolean"
      let (slate, e3) := assignField none tj "slate" convString "string"
      let (status, e4) := assignField none tj "status" convString "string"
      (some ⟨fw, mak, mdl, ser, notes, rec, slate, status⟩,
        eS ++ e1 ++ e2 ++ e3 ++ e4)

/-- `Transforms` (sequence of generic transform entries). -/
structure Transforms where
  transforms : List Transform
  deriving DecidableEq, Repr

/-- The element loop of `Transforms::parse`: each entry parsed
independently, invalid ones skipped. -/
def transformsLoop : List Json → List Transform × List String
  | [] => ([], [])
  | x :: xs =>
    let (tf, e) := Transform.parse x
    let (rest, es) := transformsLoop xs
    (match tf with
     | some t => t :: rest
     | none => rest, e ++ es)

/-- `Transforms::parse`. -/
def Transforms.parse (j : Json) : Option Transforms × List String :=
  match j.get? "transforms" with
  | none => (none, [])
  | some tj =>
    match tj with
    | .jarr xs =>
      let (ts, es) := transformsLoop xs
      (some ⟨ts⟩, es)
    | _ => (none, ["Transforms is not an array."])

/-! ### Claims -/

/-- Claim C1 (code bug): the spec says that for a document whose
`static.duration` object carries valid `uint32` `num` and `denom` fields,
`Duration::parse` returns a present `Duration` with that numerator and
denominator and appends no error.  The source instead assigns the `denom`
field into the `numerator` variable and never writes `denominator`, so on
`static.duration = \x7bnum: 3, denom: 4\x7d` the decoder returns absent and
reports a missing-required-fields error. -/
theorem duration_denom_never_assigned :
    Duration.parse (.jobj [("static", .jobj [("duration",
        .jobj [("num", .jint 3), ("denom", .jint 4)])])]) =
      (none, ["field: duration is missing required fields"]) := by
  decide

/-- Claim C2 (code bug): the spec says any `timing.mode` string other than
`"external"`/`"internal"` is rejected with an error and an absent mode.  In
the source the check `(str == "external" || "internal")` is constantly true
whenever the string is present, so `mode = "bogus"` is silently decoded as
`INTERNAL` with zero errors. -/
theorem timing_mode_accepts_any_string :
    Timing.parse (.jobj [("timing", .jobj [("mode", .jstr "bogus")])]) =
      (some { mode := some Mode.INTERNAL }, []) := by
  decide

/-- Claim C3 (code bug): the spec says a `shutterAngle` outside the
inclusive range 1–360000 is cleared with exactly one range error.  The
source checks only `> 360000`, so the out-of-range value 0 is retained with
no error, contradicting the range its own message names. -/
theorem camera_shutter_angle_lower_bound_unchecked :
    Camera.parse (.jobj [("static", .jobj [("camera",
        .jobj [("shutterAngle", .jint 0)])])]) =
      (some { shutterAngle := some 0 }, []) := by
  decide

/-- Claim C9 (code bug): the spec says a present `timing` object without a
`mode` key leaves mode absent with no error.  The source's else branch runs
exactly when the decoded string is absent, so an empty `timing` object gets
a spurious mode diagnostic. -/
theorem timing_missing_mode_reports_error :
    Timing.parse (.jobj [("timing", .jobj [])]) =
      (some {}, ["field: timing/mode has an invalid string value."]) := by
  decide

/-- Claim C8: for every one of the eleven property decoders and every
document in which the decoder's anchor key(s) are absent, the decoder
returns absent and appends zero errors. -/
theorem anchor_absent_silent :
    (∀ j : Json, (j.get? "static").bind (fun st => st.get? "camera") = none →
      Camera.parse j = (none, [])) ∧
    (∀ j : Json, (j.get? "static").bind (fun st => st.get? "duration") = none →
      Duration.parse j = (none, [])) ∧
    (∀ j : Json, j.get? "globalStage" = none →
      GlobalStage.parse j = (none, [])) ∧
    (∀ j : Json, j.get? "lens" = none →
      (j.get? "static").bind (fun st => st.get? "lens") = none →
      Lens.parse j = (none, [])) ∧
    (∀ j : Json, j.get? "protocol" = none →
      Protocol.parse j = (none, [])) ∧
    (∀ j : Json, j.get? "relatedSampleIds" = none →
      RelatedSampleIds.parse j = (none, [])) ∧
    (∀ j : Json, j.get? "sampleId" = none →
      SampleId.parse j = (none, [])) ∧
    (∀ j : Json, j.get? "streamId" = none →
      StreamId.parse j = (none, [])) ∧
    (∀ j : Json, j.get? "timing" = none →
      Timing.parse j = (none, [])) ∧
    (∀ j : Json, j.get? "tracker" = none →
      (j.get? "static").bind (fun st => st.get? "tracker") = none →
      Tracker.parse j = (none, [])) ∧
    (∀ j : Json, j.get? "transforms" = none →
      Transforms.parse j = (none, [])) := by
  refine ⟨?_, ?_, ?_, ?_, ?_, ?_, ?_, ?_, ?_, ?_, ?_⟩
  · intro j h; simp [Camera.parse, h]
  · intro j h; simp [Duration.parse, h]
  · intro j h; simp [GlobalStage.parse, h]
  · intro j h1 h2; simp [Lens.parse, h1, h2]
  · intro j h; simp [Protocol.parse, h]
  · intro j h; simp [RelatedSampleIds.parse, h]
  · intro j h; simp [SampleId.parse, h]
  · intro j h; simp [StreamId.parse, h]
  · intro j h; simp [Timing.parse, h]
  · intro j h1 h2; simp [Tracker.parse, h1, h2]
  · intro j h; simp [Transforms.parse, h]

/-- Claim C8, witness: the empty document lacks every anchor key, and each
of the eleven decoders returns absent with zero errors on it. -/
theorem anchor_absent_silent_witness :
    Camera.parse (.jobj []) = (none, []) ∧
    Duration.parse (.jobj []) = (none, []) ∧
    GlobalStage.parse (.jobj []) = (none, []) ∧
    Lens.parse (.jobj []) = (none, []) ∧
    Protocol.parse (.jobj []) = (none, []) ∧
    RelatedSampleIds.parse (.jobj []) = (none, []) ∧
    SampleId.parse (.jobj []) = (none, []) ∧
    StreamId.parse (.jobj []) = (none, []) ∧
    Timing.parse (.jobj []) = (none, []) ∧
    Tracker.parse (.jobj []) = (none, []) ∧
    Transforms.parse (.jobj []) = (none, []) :=
  ⟨anchor_absent_silent.1 _ rfl,
   anchor_absent_silent.2.1 _ rfl,
   anchor_absent_silent.2.2.1 _ rfl,
   anchor_absent_silent.2.2.2.1 _ rfl rfl,
   anchor_absent_silent.2.2.2.2.1 _ rfl,
   anchor_absent_silent.2.2.2.2.2.1 _ rfl,
   anchor_absent_silent.2.2.2.2.2.2.1 _ rfl,
   anchor_absent_silent.2.2.2.2.2.2.2.1 _ rfl,
   anchor_absent_silent.2.2.2.2.2.2.2.2.1 _ rfl,
   anchor_absent_silent.2.2.2.2.2.2.2.2.2.1 _ rfl rfl,
   anchor_absent_silent.2.2.2.2.2.2.2.2.2.2 _ rfl⟩

/-- Claim C10: whenever the `lens` key or the `static.lens` key is present
(likewise `tracker` / `static.tracker`), `Lens::parse` (resp.
`Tracker::parse`) returns a present entity — present-but-invalid sub-fields
never make the whole entity absent. -/
theorem lens_tracker_entity_always_present :
    (∀ j : Json, ((j.get? "lens").isSome ∨
        ((j.get? "static").bind (fun st => st.get? "lens")).isSome) →
      ((Lens.parse j).1).isSome = true) ∧
    (∀ j : Json, ((j.get? "tracker").isSome ∨
        ((j.get? "static").bind (fun st => st.get? "tracker")).isSome) →
      ((Tracker.parse j).1).isSome = true) := by
  constructor
  · intro j h
    rcases hL : j.get? "lens" with _ | L <;>
      rcases hS : (j.get? "static").bind (fun st => st.get? "lens")
        with _ | S <;>
      simp [Lens.parse, lensStaticPart, hL, hS] at h ⊢
  · intro j h
    rcases hT : j.get? "tracker" with _ | T <;>
      rcases hS : (j.get? "static").bind (fun st => st.get? "tracker")
        with _ | S <;>
      simp [Tracker.parse, hT, hS] at h ⊢

/-- Claim C10, witness: a document whose `lens` and `tracker` sections hold
only sub-fields that fail validation still decodes to present (all-absent)
entities. -/
theorem lens_tracker_entity_always_present_witness :
    ((Lens.parse (.jobj [("lens", .jobj [("fStop", .jstr "bad")]),
        ("tracker", .jobj [("recording", .jint 1)])])).1).isSome = true ∧
    ((Tracker.parse (.jobj [("lens", .jobj [("fStop", .jstr "bad")]),
        ("tracker", .jobj [("recording", .jint 1)])])).1).isSome = true :=
  ⟨lens_tracker_entity_always_present.1 _ (Or.inl (by decide)),
   lens_tracker_entity_always_present.2 _ (Or.inl (by decide))⟩

/-- Claim C7: when `relatedSampleIds` holds an array, the decoder returns a
present sequence of exactly those elements that are strings matching the
`urn:uuid` pattern, in document order, with one error per invalid element
(a type message for non-strings, a pattern message for mismatching
strings); the sequence as a whole is never rejected. -/
theorem relatedSampleIds_per_element (j : Json) (xs : List Json)
    (h : j.get? "relatedSampleIds" = some (.jarr xs)) :
    RelatedSampleIds.parse j =
      (some ⟨xs.filterMap (fun e =>
          match e with
          | .jstr s => if isUuidUrn s then some s else none
          | _ => none)⟩,
        xs.flatMap (fun e =>
          match e with
          | .jstr s =>
            if isUuidUrn s then []
            else ["field: relatedSampleIds/element doesn\x27t match required pattern"]
          | _ => ["field: relatedSampleIds/element isn\x27t of type: string"])) := by
  have loop : ∀ ys : List Json,
      rsLoop ys =
        (ys.filterMap (fun e =>
          match e with
          | .jstr s => if isUuidUrn s then some s else none
          | _ => none),
         ys.flatMap (fun e =>
          match e with
          | .jstr s =>
            if isUuidUrn s then []
            else ["field: relatedSampleIds/element doesn\x27t match required pattern"]
          | _ => ["field: relatedSampleIds/element isn\x27t of type: string"])) := by
    intro ys
    induction ys with
    | nil => rfl
    | cons e es ih =>
      cases e <;> simp [rsLoop, ih, convString, List.filterMap, List.flatMap]
      split <;> simp
  simp [RelatedSampleIds.parse, h, loop xs]

/-- Claim C7, witness: the spec's own example — two valid UUID URNs around
one invalid entry decode to the two valid ones plus a single pattern
error. -/
theorem relatedSampleIds_per_element_witness :
    RelatedSampleIds.parse (.jobj [("relatedSampleIds", .jarr
        [.jstr "urn:uuid:12345678-1234-1234-1234-123456789abc",
         .jstr "bad-id",
         .jstr "urn:uuid:87654321-4321-4321-4321-cba987654321"])]) =
      (some ⟨["urn:uuid:12345678-1234-1234-1234-123456789abc",
              "urn:uuid:87654321-4321-4321-4321-cba987654321"]⟩,
       ["field: relatedSampleIds/element doesn\x27t match required pattern"]) := by
  have := relatedSampleIds_per_element (.jobj [("relatedSampleIds", .jarr
        [.jstr "urn:uuid:12345678-1234-1234-1234-123456789abc",
         .jstr "bad-id",
         .jstr "urn:uuid:87654321-4321-4321-4321-cba987654321"])]) _ rfl
  simpa using this

/-- Claim C4, counterexample: the claim says `Protocol::parse` is present
iff the version is three dot-separated non-negative integers.  The source's
pattern `^[0-9]+.[0-9]+.[0-9]+$` leaves the dots unescaped, so `.` matches
any character: the version `"1a2b3"` is not in the spec's format yet the
decoder returns a present Protocol with zero errors. -/
theorem protocol_version_pattern_counterexample :
    Protocol.parse (.jobj [("protocol", .jobj [("name", .jstr "abc"),
        ("version", .jstr "1a2b3")])]) =
      (some ⟨"abc", "1a2b3"⟩, []) ∧
    specVersionFormat "1a2b3" = false := by
  decide

/-- Claim C4, amended: for every document whose `protocol` section carries a
string `name`, `Protocol::parse` returns a present value iff the `version`
field is a string matching the source's pattern `^[0-9]+.[0-9]+.[0-9]+$`
with `.` as the any-character metacharacter; a present string failing that
pattern yields an absent entity (the valid name discarded) plus one
pattern-mismatch error; an absent version yields an absent entity with no
error; a non-string version yields an absent entity with one type-mismatch
error. -/
theorem protocol_version_gate (j pj : Json) (name : String)
    (hp : j.get? "protocol" = some pj)
    (hn : pj.get? "name" = some (.jstr name)) :
    (((Protocol.parse j).1).isSome ↔
      ∃ v, pj.get? "version" = some (.jstr v) ∧ versionPatMatch v = true) ∧
    (∀ v, pj.get? "version" = some (.jstr v) → versionPatMatch v = true →
      Protocol.parse j = (some ⟨name, v⟩, [])) ∧
    (∀ v, pj.get? "version" = some (.jstr v) → versionPatMatch v = false →
      Protocol.parse j = (none, [patternMsg "version"])) ∧
    (pj.get? "version" = none → Protocol.parse j = (none, [])) ∧
    (∀ v, pj.get? "version" = some v → convString v = none →
      Protocol.parse j = (none, [typeMsg "version" "string"])) := by
  have hgd : pj.getD "name" = .jstr name := by simp [Json.getD, hn]
  refine ⟨?_, ?_, ?_, ?_, ?_⟩
  · rcases hv : pj.get? "version" with _ | v
    · simp [Protocol.parse, hp, hgd, assignRegexField, convString, hv]
    · cases v
      case jstr s =>
        simp [Protocol.parse, hp, hgd, assignRegexField, convString, hv]
        rcases hm : versionPatMatch s with _ | _ <;> simp [hm]
      all_goals simp [Protocol.parse, hp, hgd, assignRegexField, convString, hv]
  · intro v hv hm
    simp [Protocol.parse, hp, hgd, assignRegexField, convString, hv, hm]
  · intro v hv hm
    simp [Protocol.parse, hp, hgd, assignRegexField, convString, hv, hm]
  · intro hv
    simp [Protocol.parse, hp, hgd, assignRegexField, convString, hv]
  · intro v hv hc
    simp [Protocol.parse, hp, hgd, assignRegexField, convString_jstr, hv, hc]

/-- Claim C4, witness: a protocol section with name `"abc"` and version
`"1.2.3"` decodes to a present Protocol with no errors. -/
theorem protocol_version_gate_witness :
    Protocol.parse (.jobj [("protocol", .jobj [("name", .jstr "abc"),
        ("version", .jstr "1.2.3")])]) =
      (some ⟨"abc", "1.2.3"⟩, []) := by
  have h := protocol_version_gate (.jobj [("protocol", .jobj
      [("name", .jstr "abc"), ("version", .jstr "1.2.3")])])
    (.jobj [("name", .jstr "abc"), ("version", .jstr "1.2.3")]) "abc" rfl rfl
  exact h.2.1 "1.2.3" rfl (by decide)

theorem assignField_fst_none_iff {α : Type} (j : Json) (key : String)
    (conv : Json → Option α) (ty : String) :
    (assignField none j key conv ty).1 = none ↔
      ¬ ∃ v, j.get? key = some v ∧ ∃ x, conv v = some x := by
  rcases hv : j.get? key with _ | v
  · simp [assignField, hv]
  · rcases hc : conv v with _ | x <;> simp [assignField, hv, hc]

theorem assignField_fst_isSome_iff {α : Type} (j : Json) (key : String)
    (conv : Json → Option α) (ty : String) :
    ((assignField none j key conv ty).1).isSome = true ↔
      ∃ v, j.get? key = some v ∧ ∃ x, conv v = some x := by
  rcases hv : j.get? key with _ | v
  · simp [assignField, hv]
  · rcases hc : conv v with _ | x <;> simp [assignField, hv, hc]

theorem assignRegexField_fst_none_iff (j : Json) (key : String)
    (patt : String → Bool) :
    (assignRegexField none j key patt).1 = none ↔
      ¬ ∃ s, j.get? key = some (.jstr s) ∧ patt s = true := by
  rcases hv : j.get? key with _ | v
  · simp [assignRegexField, hv]
  · cases v <;> simp [assignRegexField, convString, hv]
    rcases hm : patt _ with _ | _ <;> simp [hm]

theorem assignField_fst_not_none {α : Type} (j : Json) (key : String)
    (conv : Json → Option α) (ty : String)
    (h : ¬ (assignField none j key conv ty).1 = none) :
    ∃ v, j.get? key = some v ∧ ∃ x, conv v = some x :=
  (assignField_fst_isSome_iff j key conv ty).1 (Option.ne_none_iff_isSome.mp h)

theorem assignRegexField_fst_not_none (j : Json) (key : String)
    (patt : String → Bool)
    (h : ¬ (assignRegexField none j key patt).1 = none) :
    ∃ s, j.get? key = some (.jstr s) ∧ patt s = true :=
  not_not.mp (fun hn => h ((assignRegexField_fst_none_iff j key patt).mpr hn))

/-- Claim C5: the nested optional groups collapse exactly as specified —
`Lens.distortion` and `Lens.undistortion` are materialized iff `radial` is
present and valid (tangential is irrelevant), while
`Synchronization.offsets` and `Synchronization.ptp` are materialized iff at
least one of their members is present and valid. -/
theorem nested_group_collapse :
    (∀ (j L : Json) (lens : Lens), j.get? "lens" = some L →
      (Lens.parse j).1 = some lens →
      (lens.distortion.isSome ↔ ∃ dj, L.get? "distortion" = some dj ∧
        ∃ v, dj.get? "radial" = some v ∧ ∃ r, convVecDouble v = some r)) ∧
    (∀ (j L : Json) (lens : Lens), j.get? "lens" = some L →
      (Lens.parse j).1 = some lens →
      (lens.undistortion.isSome ↔ ∃ dj, L.get? "undistortion" = some dj ∧
        ∃ v, dj.get? "radial" = some v ∧ ∃ r, convVecDouble v = some r)) ∧
    (∀ (S : Json) (sync : Synchronization),
      (Timing.parseSynchronization S).1 = some sync →
      (sync.offsets.isSome ↔ ∃ oj, S.get? "offsets" = some oj ∧
        ((∃ v, oj.get? "translation" = some v ∧ ∃ x, convDouble v = some x) ∨
         (∃ v, oj.get? "rotation" = some v ∧ ∃ x, convDouble v = some x) ∨
         (∃ v, oj.get? "lensEncoders" = some v ∧ ∃ x, convDouble v = some x)))) ∧
    (∀ (S : Json) (sync : Synchronization),
      (Timing.parseSynchronization S).1 = some sync →
      (sync.ptp.isSome ↔ ∃ pj, S.get? "ptp" = some pj ∧
        ((∃ v, pj.get? "domain" = some v ∧ ∃ x, convUInt16 v = some x) ∨
         (∃ v, pj.get? "offset" = some v ∧ ∃ x, convDouble v = some x) ∨
         (∃ s, pj.get? "master" = some (.jstr s) ∧ isMacAddr s = true)))) := by
  refine ⟨?_, ?_, ?_, ?_⟩
  · intro j L lens hL hparse
    simp [Lens.parse, hL] at hparse
    rw [← hparse]
    rcases hD : L.get? "distortion" with _ | dj
    · simp [hD]
    · simp only [hD, lensDistortionGroup, Option.some.injEq, exists_eq_left']
      rcases hr : (assignField none dj "radial" convVecDouble "double").1
        with _ | r
      · refine ⟨fun hx => absurd hx (by simp [hr]), fun hP => ?_⟩
        exact absurd hP ((assignField_fst_none_iff _ _ _ _).mp hr)
      · refine ⟨fun _ => ?_, fun _ => by simp [hr]⟩
        exact assignField_fst_not_none dj "radial" convVecDouble "double"
          (by simp [hr])
  · intro j L lens hL hparse
    simp [Lens.parse, hL] at hparse
    rw [← hparse]
    rcases hD : L.get? "undistortion" with _ | dj
    · simp [hD]
    · simp only [hD, lensDistortionGroup, Option.some.injEq, exists_eq_left']
      rcases hr : (assignField none dj "radial" convVecDouble "double").1
        with _ | r
      · refine ⟨fun hx => absurd hx (by simp [hr]), fun hP => ?_⟩
        exact absurd hP ((assignField_fst_none_iff _ _ _ _).mp hr)
      · refine ⟨fun _ => ?_, fun _ => by simp [hr]⟩
        exact assignField_fst_not_none dj "radial" convVecDouble "double"
          (by simp [hr])
  · intro S sync h
    rw [Timing.parseSynchronization] at h
    split at h
    · simp at h
    · rcases hF : Rational.parse (S.getD "frequency") with ⟨fopt, eF⟩
      rcases fopt with _ | freq
      · simp [hF] at h
      · rcases hB : convBool (S.getD "locked") with _ | locked
        · simp [hF, hB] at h
        · rcases hStr : convString (S.getD "source") with _ | str
          · simp [hF, hB, hStr] at h
          · rcases hSrc : sourceOf str with _ | src
            · simp [hF, hB, hStr, hSrc] at h
            · simp only [hF, hB, hStr, hSrc] at h
              rcases hO : S.get? "offsets" with _ | oj
              · simp only [hO] at h
                simp at h
                rw [← h]
                simp [hO]
              · simp only [hO] at h
                simp at h
                rw [← h]
                simp only [hO, Option.some.injEq, exists_eq_left']
                by_cases hc :
                    ((assignField none oj "translation" convDouble "double").1 = none ∧
                     (assignField none oj "rotation" convDouble "double").1 = none ∧
                     (assignField none oj "lensEncoders" convDouble "double").1 = none)
                · rw [if_pos hc]
                  refine ⟨fun hx => absurd hx (by simp), fun hP => ?_⟩
                  rcases hP with hP | hP | hP
                  · exact absurd hP ((assignField_fst_none_iff _ _ _ _).mp hc.1)
                  · exact absurd hP ((assignField_fst_none_iff _ _ _ _).mp hc.2.1)
                  · exact absurd hP ((assignField_fst_none_iff _ _ _ _).mp hc.2.2)
                · rw [if_neg hc]
                  refine ⟨fun _ => ?_, fun _ => rfl⟩
                  rcases not_and_or.mp hc with h1 | h23
                  · exact Or.inl (assignField_fst_not_none _ _ _ _ h1)
                  · rcases not_and_or.mp h23 with h2 | h3
                    · exact Or.inr (Or.inl (assignField_fst_not_none _ _ _ _ h2))
                    · exact Or.inr (Or.inr (assignField_fst_not_none _ _ _ _ h3))
  · intro S sync h
    rw [Timing.parseSynchronization] at h
    split at h
    · simp at h
    · rcases hF : Rational.parse (S.getD "frequency") with ⟨fopt, eF⟩
      rcases fopt with _ | freq
      · simp [hF] at h
      · rcases hB : convBool (S.getD "locked") with _ | locked
        · simp [hF, hB] at h
        · rcases hStr : convString (S.getD "source") with _ | str
          · simp [hF, hB, hStr] at h
          · rcases hSrc : sourceOf str with _ | src
            · simp [hF, hB, hStr, hSrc] at h
            · simp only [hF, hB, hStr, hSrc] at h
              rcases hP : S.get? "ptp" with _ | pj
              · simp only [hP] at h
                simp at h
                rw [← h]
                simp [hP]
              · simp only [hP] at h
                simp at h
                rw [← h]
                simp only [hP, Option.some.injEq, exists_eq_left']
                by_cases hc :
                    ((assignField none pj "domain" convUInt16 "uint16").1 = none ∧
                     (assignField none pj "offset" convDouble "double").1 = none ∧
                     (assignRegexField none pj "master" isMacAddr).1 = none)
                · rw [if_pos hc]
                  refine ⟨fun hx => absurd hx (by simp), fun hQ => ?_⟩
                  rcases hQ with hQ | hQ | hQ
                  · exact absurd hQ ((assignField_fst_none_iff _ _ _ _).mp hc.1)
                  · exact absurd hQ ((assignField_fst_none_iff _ _ _ _).mp hc.2.1)
                  · exact absurd hQ ((assignRegexField_fst_none_iff _ _ _).mp hc.2.2)
                · rw [if_neg hc]
                  refine ⟨fun _ => ?_, fun _ => rfl⟩
                  rcases not_and_or.mp hc with h1 | h23
                  · exact Or.inl (assignField_fst_not_none _ _ _ _ h1)
                  · rcases not_and_or.mp h23 with h2 | h3
                    · exact Or.inr (Or.inl (assignField_fst_not_none _ _ _ _ h2))
                    · exact Or.inr (Or.inr (assignRegexField_fst_not_none _ _ _ h3))

/-- Claim C5, witness: a lens whose `distortion` carries a valid `radial`
materializes the group while an `undistortion` carrying only `tangential`
collapses; a synchronization whose `offsets` has one valid member
materializes while a `ptp` with only an invalid member collapses. -/
theorem nested_group_collapse_witness :
    (Lens.parse (.jobj [("lens", .jobj
        [("distortion", .jobj [("radial", .jarr [.jint 1])]),
         ("undistortion", .jobj [("tangential", .jarr [.jint 2])])])])).1 =
      some { distortion := some { radial := [(1 : Rat)], tangential := none } } ∧
    ({ distortion := some { radial := [(1 : Rat)], tangential := none } }
        : Lens).distortion.isSome = true ∧
    ({ distortion := some { radial := [(1 : Rat)], tangential := none } }
        : Lens).undistortion.isSome = false ∧
    (Timing.parseSynchronization (.jobj
        [("frequency", .jobj [("num", .jint 30), ("denom", .jint 1)]),
         ("locked", .jbool true),
         ("source", .jstr "genlock"),
         ("offsets", .jobj [("translation", .jfloat 1)]),
         ("ptp", .jobj [("offset", .jstr "x")])])).1 =
      some { frequency := ⟨30, 1⟩, locked := true, source := SourceType.GEN_LOCK,
             offsets := some { translation := some 1, rotation := none,
                               lensEncoders := none } } ∧
    ({ frequency := ⟨30, 1⟩, locked := true, source := SourceType.GEN_LOCK,
       offsets := some { translation := some 1, rotation := none,
                         lensEncoders := none } } : Synchronization).offsets.isSome
      = true ∧
    ({ frequency := ⟨30, 1⟩, locked := true, source := SourceType.GEN_LOCK,
       offsets := some { translation := some 1, rotation := none,
                         lensEncoders := none } } : Synchronization).ptp.isSome
      = false :=
  ⟨by decide,
   (nested_group_collapse.1 (.jobj [("lens", .jobj
        [("distortion", .jobj [("radial", .jarr [.jint 1])]),
         ("undistortion", .jobj [("tangential", .jarr [.jint 2])])])])
      (.jobj [("distortion", .jobj [("radial", .jarr [.jint 1])]),
              ("undistortion", .jobj [("tangential", .jarr [.jint 2])])])
      { distortion := some { radial := [(1 : Rat)], tangential := none } }
      rfl (by decide)).mpr
    ⟨.jobj [("radial", .jarr [.jint 1])], rfl, .jarr [.jint 1], rfl,
      [(1 : Rat)], by decide⟩,
   by decide,
   by decide,
   (nested_group_collapse.2.2.1 (.jobj
        [("frequency", .jobj [("num", .jint 30), ("denom", .jint 1)]),
         ("locked", .jbool true),
         ("source", .jstr "genlock"),
         ("offsets", .jobj [("translation", .jfloat 1)]),
         ("ptp", .jobj [("offset", .jstr "x")])])
      { frequency := ⟨30, 1⟩, locked := true, source := SourceType.GEN_LOCK,
        offsets := some { translation := some 1, rotation := none,
                          lensEncoders := none } }
      (by decide)).mpr
    ⟨.jobj [("translation", .jfloat 1)], rfl,
      Or.inl ⟨.jfloat 1, rfl, 1, by decide⟩⟩,
   by decide⟩

theorem append_insert_split (a b c d e g : List String) (m : String) :
    ∃ A B, a ++ (b ++ (c ++ (d ++ (e ++ (m :: g))))) = A ++ (m :: B) ∧
      a ++ (b ++ (c ++ (d ++ (e ++ g)))) = A ++ B :=
  ⟨a ++ (b ++ (c ++ (d ++ e))), g, by simp [List.append_assoc],
    by simp [List.append_assoc]⟩

/-- Claim C6: when a present `timing.synchronization` object lacks any of
the required fields `frequency`, `locked` or `source`, the Synchronization
entity is wholly absent with exactly one missing-required-field error, and
the sibling Timing fields decode exactly as they would if the
`synchronization` key were not there at all, with that single error
inserted into the otherwise unchanged error sequence. -/
theorem sync_missing_required (j T S : Json)
    (hT : j.get? "timing" = some T)
    (hS : T.get? "synchronization" = some S)
    (hmiss : S.get? "frequency" = none ∨ S.get? "locked" = none ∨
      S.get? "source" = none) :
    Timing.parseSynchronization S =
      (none, ["field: timing/synchronization is missing required fields"]) ∧
    (Timing.parse j).1 =
      (Timing.parse (.jobj [("timing", T.eraseKey "synchronization")])).1 ∧
    (∃ t, (Timing.parse j).1 = some t ∧ t.synchronization = none) ∧
    (∃ A B, (Timing.parse j).2 =
        A ++ ["field: timing/synchronization is missing required fields"] ++ B ∧
      (Timing.parse (.jobj [("timing", T.eraseKey "synchronization")])).2 =
        A ++ B) := by
  have hTobj : T.isObj = true := get?_some_isObj T "synchronization" S hS
  have hgate : ¬ (S.contains "frequency" = true ∧ S.contains "locked" = true ∧
      S.contains "source" = true) := by
    rcases hmiss with h | h | h <;> simp [Json.contains, h]
  have hsync1 : Timing.parseSynchronization S =
      (none, ["field: timing/synchronization is missing required fields"]) := by
    rw [Timing.parseSynchronization, if_pos hgate]
  have h0 := eraseKey_get?_self T "synchronization"
  have h1 := eraseKey_get?_ne T "synchronization" "frameRate" (by decide)
  have h2 := eraseKey_get?_ne T "synchronization" "mode" (by decide)
  have h3 := eraseKey_get?_ne T "synchronization" "recordedTimestamp" (by decide)
  have h4 := eraseKey_get?_ne T "synchronization" "sampleTimestamp" (by decide)
  have h5 := eraseKey_get?_ne T "synchronization" "sequenceNumber" (by decide)
  have h6 := eraseKey_get?_ne T "synchronization" "timecode" (by decide)
  have hj' : (Json.jobj [("timing", T.eraseKey "synchronization")]).get? "timing"
      = some (T.eraseKey "synchronization") := by
    simp [Json.get?, lookupField]
  have c1 : optSubParse (T.eraseKey "synchronization") "frameRate" Rational.parse
      = optSubParse T "frameRate" Rational.parse := by simp [optSubParse, h1]
  have c2 : timingModeField (T.eraseKey "synchronization") = timingModeField T := by
    simp [timingModeField, assignField, h2]
  have c3 : optSubParse (T.eraseKey "synchronization") "recordedTimestamp"
      Timestamp.parse = optSubParse T "recordedTimestamp" Timestamp.parse := by
    simp [optSubParse, h3]
  have c4 : optSubParse (T.eraseKey "synchronization") "sampleTimestamp"
      Timestamp.parse = optSubParse T "sampleTimestamp" Timestamp.parse := by
    simp [optSubParse, h4]
  have c5 : assignField none (T.eraseKey "synchronization") "sequenceNumber"
      convUInt16 "uint16" = assignField none T "sequenceNumber" convUInt16 "uint16" := by
    simp [assignField, h5]
  have c6 : optSubParse (T.eraseKey "synchronization") "timecode" Timecode.parse
      = optSubParse T "timecode" Timecode.parse := by simp [optSubParse, h6]
  have cs : optSubParse T "synchronization" Timing.parseSynchronization =
      (none, ["field: timing/synchronization is missing required fields"]) := by
    simp [optSubParse, hS, hsync1]
  have cs' : optSubParse (T.eraseKey "synchronization") "synchronization"
      Timing.parseSynchronization = (none, []) := by simp [optSubParse, h0]
  refine ⟨hsync1, ?_, ?_, ?_⟩
  · simp [Timing.parse, hT, hj', eraseKey_isObj, hTobj, c1, c2, c3, c4, c5, c6,
      cs, cs']
  · simp [Timing.parse, hT, hTobj, cs]
  · simp only [Timing.parse, hT, hj']
    simp [eraseKey_isObj, hTobj, c1, c2, c3, c4, c5, c6, cs, cs']
    exact append_insert_split _ _ _ _ _ _ _

/-- Claim C6, witness: a `timing` section carrying `mode`, `frameRate` and a
`synchronization` object that lacks `locked` decodes its siblings normally,
drops the whole synchronization entity and reports exactly one
missing-required-fields error. -/
theorem sync_missing_required_witness :
    Timing.parseSynchronization (.jobj
        [("frequency", .jobj [("num", .jint 30), ("denom", .jint 1)]),
         ("source", .jstr "genlock")]) =
      (none, ["field: timing/synchronization is missing required fields"]) ∧
    (Timing.parse (.jobj [("timing", .jobj
        [("mode", .jstr "external"),
         ("frameRate", .jobj [("num", .jint 24), ("denom", .jint 1)]),
         ("synchronization", .jobj
           [("frequency", .jobj [("num", .jint 30), ("denom", .jint 1)]),
            ("source", .jstr "genlock")])])])).1 =
      some { frameRate := some ⟨24, 1⟩, mode := some Mode.EXTERNAL } ∧
    (Timing.parse (.jobj [("timing", .jobj
        [("mode", .jstr "external"),
         ("frameRate", .jobj [("num", .jint 24), ("denom", .jint 1)]),
         ("synchronization", .jobj
           [("frequency", .jobj [("num", .jint 30), ("denom", .jint 1)]),
            ("source", .jstr "genlock")])])])).2 =
      ["field: timing/synchronization is missing required fields"] :=
  ⟨(sync_missing_required
      (.jobj [("timing", .jobj
        [("mode", .jstr "external"),
         ("frameRate", .jobj [("num", .jint 24), ("denom", .jint 1)]),
         ("synchronization", .jobj
           [("frequency", .jobj [("num", .jint 30), ("denom", .jint 1)]),
            ("source", .jstr "genlock")])])])
      (.jobj
        [("mode", .jstr "external"),
         ("frameRate", .jobj [("num", .jint 24), ("denom", .jint 1)]),
         ("synchronization", .jobj
           [("frequency", .jobj [("num", .jint 30), ("denom", .jint 1)]),
            ("source", .jstr "genlock")])])
      (.jobj
        [("frequency", .jobj [("num", .jint 30), ("denom", .jint 1)]),
         ("source", .jstr "genlock")])
      rfl rfl (Or.inr (Or.inl rfl))).1,
   by decide,
   by decide⟩

end OpenTrack
